import Mathlib

/-!
# Verification of the vax-finder poll-parse-filter-notify core

A shallow embedding of `src/main.rs` of the `vax-finder` repository:
the typed domain model (`Area`, `Appointments`, `Location`, `PortalType`,
`Portal`, `Response`), the serde-derived JSON decoding of that model over an
abstract JSON value type, the availability filter, the portal resolution,
the notification body composition, and the scheduler loop (as a fuel-indexed
function over oracles for the two external effects: HTTP fetch and mail send).

External crate behaviour that the source relies on is modelled explicitly:
* `serde`/`serde_json` derive semantics (field lookup, `Option` fields
  defaulting to `None` when missing or `null`, unknown enum strings being
  errors, `usize` rejecting negative and non-integral numbers);
* `chrono` RFC 3339 timestamp parsing (as a simplified concrete parser —
  the claims only depend on presence/absence and on some strings parsing);
* `reqwest::get(..).await?`, which fails on network/transport errors and
  returns the response, whatever its HTTP status, otherwise (the source
  never calls `error_for_status` nor inspects the status);
* `dotenv::dotenv()`, which returns an error when no `.env` file is found.
-/

/-! ## JSON values

Abstract JSON model. A number carries its integer value and a flag telling
whether it is an integer (`isInt := false` stands for a number with a
fractional part, which `serde` rejects for integral Rust targets). -/

inductive Json where
  | null
  | bool (b : Bool)
  | num (val : Int) (isInt : Bool)
  | str (s : String)
  | arr (items : List Json)
  | obj (fields : List (String × Json))
deriving Repr

/-- Field lookup in a JSON object; `none` for missing fields or non-objects. -/
def Json.getField (j : Json) (key : String) : Option Json :=
  match j with
  | .obj fields => fields.lookup key
  | _ => none

/-! ## Domain model (`src/main.rs`, lines 12–80) -/

/-- `enum Area` from the source. -/
inductive Area where
  | Bronx
  | Brooklyn
  | Manhattan
  | Queens
  | StatenIsland
  | LongIsland
  | MidHudson
deriving Repr, DecidableEq

/-- The `Display` impl for `Area` (lines 26–39 of the source). -/
def Area.display : Area → String
  | .Bronx => "Bronx"
  | .Brooklyn => "Brooklyn"
  | .Manhattan => "Manhattan"
  | .Queens => "Queens"
  | .StatenIsland => "Staten Island"
  | .LongIsland => "Long Island"
  | .MidHudson => "Mid-Hudson"

/-- The serde `Deserialize` string table for `Area`: variant names, with the
`#[serde(rename = ...)]` attributes for the three multi-word variants.
Unrecognised strings are decode errors (serde derive semantics). -/
def Area.fromString : String → Option Area
  | "Bronx" => some .Bronx
  | "Brooklyn" => some .Brooklyn
  | "Manhattan" => some .Manhattan
  | "Queens" => some .Queens
  | "Staten Island" => some .StatenIsland
  | "Long Island" => some .LongIsland
  | "Mid-Hudson" => some .MidHudson
  | _ => none

/-- `enum PortalType` from the source. -/
inductive PortalType where
  | Clinic
  | Government
  | Pharmacy
deriving Repr, DecidableEq

/-- The canonical serialized string of each `PortalType` variant, as fixed by
`#[serde(rename_all = "lowercase")]` on the enum. -/
def PortalType.canonical : PortalType → String
  | .Clinic => "clinic"
  | .Government => "government"
  | .Pharmacy => "pharmacy"

/-- The serde `Deserialize` string table for `PortalType`
(`#[serde(rename_all = "lowercase")]`). -/
def PortalType.fromString : String → Option PortalType
  | "clinic" => some .Clinic
  | "government" => some .Government
  | "pharmacy" => some .Pharmacy
  | _ => none

/-- Model of `chrono::DateTime<Utc>`: a timezone-aware instant, given by its
calendar fields (always in UTC). -/
structure DateTimeUtc where
  year : Nat
  month : Nat
  day : Nat
  hour : Nat
  minute : Nat
  second : Nat
deriving Repr, DecidableEq

/-- `struct Appointments` from the source. -/
structure Appointments where
  count : Nat
  summary : Option String
deriving Repr, DecidableEq

/-- `struct Location` from the source. -/
structure Location where
  active : Bool
  appointments : Appointments
  area : Area
  available : Bool
  id : String
  last_available_at : Option DateTimeUtc
  name : String
  portal : String
  updated_at : Option DateTimeUtc
deriving Repr, DecidableEq

/-- `struct Portal` from the source. -/
structure Portal where
  key : String
  name : String
  url : String
  portal_type : PortalType
deriving Repr, DecidableEq

/-- `struct Response` from the source: the Snapshot of one poll cycle. -/
structure Response where
  last_updated_at : DateTimeUtc
  locations : List Location
  portals : List Portal
deriving Repr, DecidableEq

/-! ## Decoder

Models `serde_json::from_str::<Response>` at the JSON-value level.
`none` stands for a `DecodeError`. -/

/-- Parse a fixed-width decimal number from characters; `none` when any
character is not a digit. -/
def parseDigits : List Char → Option Nat
  | [] => some 0
  | c :: cs =>
    if c.isDigit then
      (parseDigits cs).map (fun rest => (c.toNat - 48) * 10 ^ cs.length + rest)
    else
      none

/-- Model of `chrono` RFC 3339 parsing for `DateTime<Utc>`, restricted to the
`YYYY-MM-DDTHH:MM:SSZ` shape (sufficient for the claims, which depend only on
presence/absence of timestamps and on some strings parsing successfully). -/
def parseDateTime (s : String) : Option DateTimeUtc :=
  match s.data with
  | [y1, y2, y3, y4, '-', m1, m2, '-', d1, d2, 'T',
     h1, h2, ':', mi1, mi2, ':', s1, s2, 'Z'] => do
    let year ← parseDigits [y1, y2, y3, y4]
    let month ← parseDigits [m1, m2]
    let day ← parseDigits [d1, d2]
    let hour ← parseDigits [h1, h2]
    let minute ← parseDigits [mi1, mi2]
    let second ← parseDigits [s1, s2]
    if 1 ≤ month ∧ month ≤ 12 ∧ 1 ≤ day ∧ day ≤ 31 ∧ hour ≤ 23 ∧
        minute ≤ 59 ∧ second ≤ 60 then
      some ⟨year, month, day, hour, minute, second⟩
    else
      none
  | _ => none

/-- Decode a JSON value as a Rust `String`. -/
def decodeString : Json → Option String
  | .str s => some s
  | _ => none

/-- Decode a JSON value as a Rust `bool`. -/
def decodeBool : Json → Option Bool
  | .bool b => some b
  | _ => none

/-- Decode a JSON value as a Rust `usize`: serde rejects negative numbers,
numbers with a fractional part, and every non-number. -/
def decodeUsize : Json → Option Nat
  | .num v isInt => if 0 ≤ v ∧ isInt = true then some v.toNat else none
  | _ => none

/-- Decode a JSON value as `chrono::DateTime<Utc>` (a JSON string holding an
RFC 3339 instant). -/
def decodeDateTime (j : Json) : Option DateTimeUtc :=
  match j with
  | .str s => parseDateTime s
  | _ => none

/-- Decode a JSON value as `Area` (a string looked up in the serde table). -/
def decodeArea (j : Json) : Option Area :=
  match j with
  | .str s => Area.fromString s
  | _ => none

/-- Decode a JSON value as `PortalType`. -/
def decodePortalType (j : Json) : Option PortalType :=
  match j with
  | .str s => PortalType.fromString s
  | _ => none

/-- A required struct field: missing is a decode error (serde derive). -/
def reqField (j : Json) (key : String) (dec : Json → Option α) : Option α :=
  (j.getField key).bind dec

/-- An `Option<T>` struct field: serde derive treats a missing field as
`None`, `null` as `None`, and otherwise decodes the value as `T`. -/
def optField (j : Json) (key : String) (dec : Json → Option α) :
    Option (Option α) :=
  match j.getField key with
  | none => some none
  | some .null => some none
  | some v => (dec v).map some

/-- Decode `struct Appointments`. -/
def decodeAppointments (j : Json) : Option Appointments := do
  let count ← reqField j "count" decodeUsize
  let summary ← optField j "summary" decodeString
  pure ⟨count, summary⟩

/-- Decode `struct Location`. -/
def decodeLocation (j : Json) : Option Location := do
  let active ← reqField j "active" decodeBool
  let appointments ← reqField j "appointments" decodeAppointments
  let area ← reqField j "area" decodeArea
  let available ← reqField j "available" decodeBool
  let id ← reqField j "id" decodeString
  let last_available_at ← optField j "last_available_at" decodeDateTime
  let name ← reqField j "name" decodeString
  let portal ← reqField j "portal" decodeString
  let updated_at ← optField j "updated_at" decodeDateTime
  pure ⟨active, appointments, area, available, id, last_available_at,
        name, portal, updated_at⟩

/-- Decode `struct Portal` (the enum field is serialized as `"type"`). -/
def decodePortal (j : Json) : Option Portal := do
  let key ← reqField j "key" decodeString
  let name ← reqField j "name" decodeString
  let url ← reqField j "url" decodeString
  let portal_type ← reqField j "type" decodePortalType
  pure ⟨key, name, url, portal_type⟩

/-- Decode every element of a JSON array; any element failing fails the list. -/
def decodeListWith (dec : Json → Option α) : List Json → Option (List α)
  | [] => some []
  | j :: js => do
    let a ← dec j
    let rest ← decodeListWith dec js
    pure (a :: rest)

/-- Decode a JSON value as a `Vec<T>`. -/
def decodeList (dec : Json → Option α) (j : Json) : Option (List α) :=
  match j with
  | .arr items => decodeListWith dec items
  | _ => none

/-- Decode `struct Response`: the Snapshot (`serde_json::from_str`). -/
def decodeResponse (j : Json) : Option Response := do
  let last_updated_at ← reqField j "last_updated_at" decodeDateTime
  let locations ← reqField j "locations" (decodeList decodeLocation)
  let portals ← reqField j "portals" (decodeList decodePortal)
  pure ⟨last_updated_at, locations, portals⟩

/-! ## Availability filter, portal resolution, notification body
(`main` lines 142–159 and `Email::notify` lines 101–126) -/

/-- The availability filter of `main`:
`res.locations.iter().filter_map(|location| if location.available { Some(location) } else { None })`. -/
def availableLocations (locations : List Location) : List Location :=
  locations.filterMap (fun location =>
    if location.available then some location else none)

/-- Portal resolution in `main`:
`res.portals.iter().find(|portal| portal.key == location.portal)`. -/
def resolvePortal (portals : List Portal) (location : Location) :
    Option Portal :=
  portals.find? (fun portal => portal.key == location.portal)

/-- The fallback referral line used when no portal matched. -/
def fallbackReferral : String := "Visit turbovax.info for more information"

/-- The message body composed by `Email::notify` (including the source's
spelling of "appoitnemnt"). -/
def notifyBody (location : Location) (portal : Option Portal) : String :=
  let body := "Found " ++ toString location.appointments.count ++
    " vaccine appoitnemnt(s)! The location is " ++ location.name ++
    " in " ++ location.area.display ++ ".\n"
  let body :=
    match location.appointments.summary with
    | some details => body ++ details ++ "\n"
    | none => body
  match portal with
  | some portal =>
    body ++ "Appointments can be booked through the " ++ portal.name ++
      " portal, at " ++ portal.url
  | none => body ++ fallbackReferral

/-! ## Scheduler loop (`main`, lines 128–161)

The two external effects are abstracted into an oracle: `fetch n` is the
outcome of the HTTP GET of cycle `n` (`reqwest::get(..).await?` together with
`res.text().await?`), and `sendOk n location` tells whether the SMTP send to
`location` in cycle `n` succeeds.  `reqwest::get(..).await?` propagates
network/transport errors only; an HTTP response is returned whole, whatever
its status — the source never inspects the status. -/

/-- Outcome of one HTTP fetch: a network/transport error, or a response with
an HTTP status code and a (already JSON-parsed) body. -/
inductive FetchOutcome where
  | netErr
  | response (status : Nat) (body : Json)

/-- Oracle for the loop's external effects. -/
structure Oracle where
  fetch : Nat → FetchOutcome
  sendOk : Nat → Location → Bool

/-- The error that terminates the loop, by the `?` that raised it. -/
inductive LoopErr where
  | fetchError
  | decodeError
  | sendError
deriving Repr, DecidableEq

/-- The notify step of one cycle: walk the filtered locations in order,
invoking the send for each; the first failing send aborts the walk
(`client.notify(location, portal)?` inside the `for` loop).  Returns the
list of locations for which a send was invoked (in invocation order) and
whether all invoked sends succeeded. -/
def notifySeq (sendOk : Location → Bool) : List Location → List Location × Bool
  | [] => ([], true)
  | l :: ls =>
    if sendOk l then
      let rest := notifySeq sendOk ls
      (l :: rest.1, rest.2)
    else
      ([l], false)

/-- The fetch-independent tail of one cycle: decode the body, filter, notify.
Returns the locations notified and the error that aborted the cycle, if any. -/
def handleBody (sendOk : Location → Bool) (body : Json) :
    List Location × Option LoopErr :=
  match decodeResponse body with
  | none => ([], some .decodeError)
  | some res =>
    let notified := notifySeq sendOk (availableLocations res.locations)
    (notified.1, if notified.2 then none else some .sendError)

/-- One loop cycle (`n` is the cycle index): fetch, then `handleBody`.
A network/transport error in the fetch aborts the cycle; the HTTP status is
never consulted. -/
def runCycle (o : Oracle) (n : Nat) : List Location × Option LoopErr :=
  match o.fetch n with
  | .netErr => ([], some .fetchError)
  | .response _ body => handleBody (o.sendOk n) body

/-- Run the loop for at most `fuel` cycles starting at cycle index `n`.
Returns the per-cycle lists of notified locations, one entry per cycle that
executed (i.e. whose fetch was issued), and the error that terminated the
loop (`none` when the fuel ran out with the loop still going). -/
def runLoopFrom (o : Oracle) : Nat → Nat → List (List Location) × Option LoopErr
  | _, 0 => ([], none)
  | n, fuel + 1 =>
    let cycle := runCycle o n
    match cycle.2 with
    | some e => ([cycle.1], some e)
    | none =>
      let rest := runLoopFrom o (n + 1) fuel
      (cycle.1 :: rest.1, rest.2)

/-- The scheduler loop of `main`, fuel-indexed (the source loops forever;
`fuel` bounds how many cycles we observe). -/
def runLoop (o : Oracle) (fuel : Nat) : List (List Location) × Option LoopErr :=
  runLoopFrom o 0 fuel

/-! ## Startup (`main`, lines 129–134)

`dotenv()?` runs before the credentials are read; `dotenv::dotenv()` returns
an error when no `.env` file can be found, which `?` propagates. -/

/-- Startup errors, by the `?` that raised them. -/
inductive StartupErr where
  | dotenvError
  | missingVar (name : String)
deriving Repr, DecidableEq

/-- The startup sequence of `main`: `dotenv()?`, then read the two
credential variables (`env::var(..)?`).  `envFileFound` tells whether a
`.env` file was found; `getVar` is the process environment after any
loading. -/
def startup (envFileFound : Bool) (getVar : String → Option String) :
    Except StartupErr (String × String) := do
  if envFileFound then
    pure ()
  else
    throw .dotenvError
  let email ←
    match getVar "LETTRE_EMAIL" with
    | some v => pure v
    | none => throw (.missingVar "LETTRE_EMAIL")
  let password ←
    match getVar "LETTRE_PASSWORD" with
    | some v => pure v
    | none => throw (.missingVar "LETTRE_PASSWORD")
  pure (email, password)

/-! ## General lemmas -/

/-- The availability filter is `List.filter` on the `available` field. -/
theorem availableLocations_eq_filter (ls : List Location) :
    availableLocations ls = ls.filter (fun l => l.available) := by
  induction ls with
  | nil => rfl
  | cons l ls ih =>
    by_cases h : l.available <;>
      simp [availableLocations, List.filterMap_cons, List.filter_cons, h] at ih ⊢ <;>
      exact ih

/-- Changing every location's `active` field commutes with the availability
filter: the filter never consults `active`. -/
theorem availableLocations_map_active (ls : List Location) (b : Bool) :
    availableLocations (ls.map (fun l => { l with active := b })) =
      (availableLocations ls).map (fun l => { l with active := b }) := by
  induction ls with
  | nil => rfl
  | cons l ls ih =>
    by_cases h : l.available <;>
      simp [availableLocations, List.filterMap_cons, h] at ih ⊢ <;>
      exact ih

/-! ## Claims -/

/-- A Snapshot whose locations are: available and active, unavailable,
available but inactive. -/
def locActive : Location :=
  ⟨true, ⟨2, none⟩, .Bronx, true, "a", none, "A", "p1", none⟩

def locUnavailable : Location :=
  ⟨true, ⟨0, none⟩, .Queens, false, "b", none, "B", "p1", none⟩

def locInactive : Location :=
  ⟨false, ⟨1, none⟩, .Brooklyn, true, "c", none, "C", "p2", none⟩

def respC1 : Response :=
  ⟨⟨2021, 3, 1, 10, 0, 0⟩, [locActive, locUnavailable, locInactive], []⟩

/-- C1: for every Snapshot, the availability filter yields exactly the
locations whose `available` field is `true`, in the Snapshot's original list
order (it equals `List.filter` on `available`); the `active` field is not
consulted (updating `active` everywhere commutes with the filter), so a
location with `active = false` and `available = true` is still yielded. -/
theorem availability_filter_correct (s : Response) :
    availableLocations s.locations = s.locations.filter (fun l => l.available) ∧
    (∀ b : Bool,
      availableLocations (s.locations.map (fun l => { l with active := b })) =
        (availableLocations s.locations).map (fun l => { l with active := b })) ∧
    (∀ l ∈ s.locations, l.available = true →
      l ∈ availableLocations s.locations) := by
  refine ⟨availableLocations_eq_filter _, fun b => availableLocations_map_active _ b, ?_⟩
  intro l hl hav
  rw [availableLocations_eq_filter]
  exact List.mem_filter.mpr ⟨hl, by simp [hav]⟩

/-- C1 witness: on the concrete Snapshot `respC1`, the inactive-but-available
location is yielded by the filter. -/
theorem availability_filter_correct_witness :
    locInactive ∈ availableLocations respC1.locations :=
  (availability_filter_correct respC1).2.2 locInactive (by decide) rfl

/-- C3: decoding each Area / PortalType variant's canonical display string
yields the variant, and re-encoding the decoded variant yields exactly the
original string. -/
theorem enum_roundtrip :
    (∀ a : Area, Area.fromString a.display = some a ∧
      (Area.fromString a.display).map Area.display = some a.display) ∧
    (∀ p : PortalType, PortalType.fromString p.canonical = some p ∧
      (PortalType.fromString p.canonical).map PortalType.canonical =
        some p.canonical) := by
  constructor
  · intro a; cases a <;> exact ⟨rfl, rfl⟩
  · intro p; cases p <;> exact ⟨rfl, rfl⟩

/-- The fixed decode table of Area strings. -/
def areaStrings : List String :=
  ["Bronx", "Brooklyn", "Manhattan", "Queens", "Staten Island",
   "Long Island", "Mid-Hudson"]

/-- The fixed decode table of PortalType strings. -/
def portalTypeStrings : List String := ["clinic", "government", "pharmacy"]

/-- Strings outside the Area table do not decode. -/
theorem areaFromString_eq_none {s : String} (h : s ∉ areaStrings) :
    Area.fromString s = none := by
  simp [areaStrings] at h
  unfold Area.fromString
  split <;> simp_all

/-- Strings outside the PortalType table do not decode. -/
theorem portalTypeFromString_eq_none {s : String}
    (h : s ∉ portalTypeStrings) : PortalType.fromString s = none := by
  simp [portalTypeStrings] at h
  unfold PortalType.fromString
  split <;> simp_all

/-- A full Location JSON object whose `area` value is the argument and whose
other fields are well-formed. -/
def mkLocationJson (areaJ : Json) : Json :=
  .obj [("active", .bool true),
        ("appointments", .obj [("count", .num 3 true), ("summary", .null)]),
        ("area", areaJ),
        ("available", .bool true),
        ("id", .str "loc-1"),
        ("last_available_at", .null),
        ("name", .str "Clinic A"),
        ("portal", .str "p1"),
        ("updated_at", .null)]

/-- Decoding `mkLocationJson` reduces to decoding its `area` value. -/
theorem decodeLocation_mkLocationJson (areaJ : Json) :
    decodeLocation (mkLocationJson areaJ) =
      (decodeArea areaJ).bind (fun area =>
        some ⟨true, ⟨3, none⟩, area, true, "loc-1", none, "Clinic A",
              "p1", none⟩) := by
  cases h : decodeArea areaJ <;>
    simp [decodeLocation, mkLocationJson, reqField, optField, Json.getField,
      List.lookup, decodeBool, decodeAppointments, decodeUsize, decodeString,
      h, Option.bind]

/-- C4: every string outside the fixed canonical tables of Area (resp.
PortalType) fails to decode — also inside a full Location payload — rather
than mapping to a default variant. -/
theorem decode_rejects_unknown_enum (s t : String)
    (hs : s ∉ areaStrings) (ht : t ∉ portalTypeStrings) :
    Area.fromString s = none ∧ decodeArea (.str s) = none ∧
    PortalType.fromString t = none ∧ decodePortalType (.str t) = none ∧
    decodeLocation (mkLocationJson (.str s)) = none := by
  have ha := areaFromString_eq_none hs
  have hp := portalTypeFromString_eq_none ht
  refine ⟨ha, by simp [decodeArea, ha], hp, by simp [decodePortalType, hp], ?_⟩
  rw [decodeLocation_mkLocationJson]
  simp [decodeArea, ha]

/-- C4 witness: `"Atlantis"` and `"castle"` are rejected. -/
theorem decode_rejects_unknown_enum_witness :
    Area.fromString "Atlantis" = none ∧
    decodeArea (.str "Atlantis") = none ∧
    PortalType.fromString "castle" = none ∧
    decodePortalType (.str "castle") = none ∧
    decodeLocation (mkLocationJson (.str "Atlantis")) = none :=
  decode_rejects_unknown_enum "Atlantis" "castle" (by decide) (by decide)

/-- A full Response JSON whose single location's appointments `count` value
is the argument. -/
def mkCountResponseJson (countJ : Json) : Json :=
  .obj [("last_updated_at", .str "2021-03-01T10:00:00Z"),
        ("locations", .arr
          [.obj [("active", .bool true),
                 ("appointments",
                   .obj [("count", countJ), ("summary", .str "walk-in")]),
                 ("area", .str "Brooklyn"),
                 ("available", .bool true),
                 ("id", .str "loc-5"),
                 ("last_available_at", .null),
                 ("name", .str "Clinic B"),
                 ("portal", .str "p1"),
                 ("updated_at", .null)]]),
        ("portals", .arr [])]

/-- Decoding `mkCountResponseJson` reduces to decoding its `count` value. -/
theorem decodeResponse_mkCountResponseJson (countJ : Json) :
    decodeResponse (mkCountResponseJson countJ) =
      (decodeUsize countJ).bind (fun count =>
        some ⟨⟨2021, 3, 1, 10, 0, 0⟩,
              [⟨true, ⟨count, some "walk-in"⟩, .Brooklyn, true, "loc-5",
                none, "Clinic B", "p1", none⟩], []⟩) := by
  cases h : decodeUsize countJ <;>
    simp [decodeResponse, mkCountResponseJson, reqField, optField,
      Json.getField, List.lookup, decodeList, decodeListWith, decodeLocation,
      decodeAppointments, decodeBool, decodeString, decodeArea,
      Area.fromString, decodeDateTime, parseDateTime, parseDigits,
      h, Option.bind]

/-- C5: the appointments `count` decoder accepts exactly the non-negative
integral JSON numbers; inside a Snapshot payload, a negative or non-integral
`count` fails the whole decode, and a non-negative integer decodes to
exactly that value. -/
theorem count_decode_constraints (v : Int) (isInt : Bool) :
    (decodeUsize (.num v isInt) =
      if 0 ≤ v ∧ isInt = true then some v.toNat else none) ∧
    (v < 0 ∨ isInt = false →
      decodeResponse (mkCountResponseJson (.num v isInt)) = none) ∧
    (0 ≤ v → isInt = true →
      ∃ r, decodeResponse (mkCountResponseJson (.num v isInt)) = some r ∧
        r.locations.map (fun l => l.appointments.count) = [v.toNat]) := by
  refine ⟨rfl, ?_, ?_⟩
  · intro h
    rw [decodeResponse_mkCountResponseJson]
    have : ¬ (0 ≤ v ∧ isInt = true) := by
      rcases h with h | h
      · exact fun hc => absurd hc.1 (not_le.mpr h)
      · exact fun hc => by simp [h] at hc
    simp [decodeUsize, this]
  · intro h1 h2
    rw [decodeResponse_mkCountResponseJson]
    simp [decodeUsize, h1, h2]

/-- C5 witness: `count = -2` fails the Snapshot decode; `count = 5` decodes
to exactly `5`. -/
theorem count_decode_constraints_witness :
    decodeResponse (mkCountResponseJson (.num (-2) true)) = none ∧
    ∃ r, decodeResponse (mkCountResponseJson (.num 5 true)) = some r ∧
      r.locations.map (fun l => l.appointments.count) = [(5 : Int).toNat] :=
  ⟨(count_decode_constraints (-2) true).2.1 (Or.inl (by decide)),
   (count_decode_constraints 5 true).2.2 (by decide) rfl⟩

/-- A full Location JSON object in which the `last_available_at` and
`updated_at` fields are each either absent (`none`) or carry the given
value. -/
def mkTsLocationJson (la ua : Option Json) : Json :=
  .obj ([("active", .bool true),
         ("appointments", .obj [("count", .num 1 true)]),
         ("area", .str "Queens"),
         ("available", .bool false),
         ("id", .str "loc-8")] ++
        (match la with | some j => [("last_available_at", j)] | none => []) ++
        [("name", .str "Site Q"), ("portal", .str "p2")] ++
        (match ua with | some j => [("updated_at", j)] | none => []))

/-- Decoding `mkTsLocationJson` with both timestamps present as strings
reduces to parsing those strings. -/
theorem decodeLocation_mkTsLocationJson_str (s u : String) :
    decodeLocation (mkTsLocationJson (some (.str s)) (some (.str u))) =
      (parseDateTime s).bind (fun d1 =>
        (parseDateTime u).bind (fun d2 =>
          some ⟨true, ⟨1, none⟩, .Queens, false, "loc-8", some d1,
                "Site Q", "p2", some d2⟩)) := by
  cases h1 : parseDateTime s <;> cases h2 : parseDateTime u <;>
    simp [decodeLocation, mkTsLocationJson, reqField, optField, Json.getField,
      List.lookup, decodeBool, decodeAppointments, decodeUsize, decodeString,
      decodeArea, Area.fromString, decodeDateTime, h1, h2, Option.bind]

/-- C8: omitted and `null` optional timestamps decode to `none` (absence is a
valid state, not an error), and a present timestamp string that parses as an
instant decodes to `some` of that instant. -/
theorem timestamp_optional_decode (s u : String) (d e : DateTimeUtc)
    (hs : parseDateTime s = some d) (hu : parseDateTime u = some e) :
    (∃ loc, decodeLocation (mkTsLocationJson none none) = some loc ∧
      loc.last_available_at = none ∧ loc.updated_at = none) ∧
    (∃ loc,
      decodeLocation (mkTsLocationJson (some .null) (some .null)) = some loc ∧
      loc.last_available_at = none ∧ loc.updated_at = none) ∧
    (∃ loc,
      decodeLocation (mkTsLocationJson (some (.str s)) (some (.str u))) =
        some loc ∧
      loc.last_available_at = some d ∧ loc.updated_at = some e) := by
  refine ⟨⟨_, rfl, rfl, rfl⟩, ⟨_, rfl, rfl, rfl⟩, ?_⟩
  rw [decodeLocation_mkTsLocationJson_str, hs, hu]
  exact ⟨_, rfl, rfl, rfl⟩

/-- C8 witness: at the concrete timestamp strings
`"2021-03-01T10:00:00Z"` and `"2021-04-02T11:30:05Z"`. -/
theorem timestamp_optional_decode_witness :
    ∃ loc,
      decodeLocation (mkTsLocationJson (some (.str "2021-03-01T10:00:00Z"))
        (some (.str "2021-04-02T11:30:05Z"))) = some loc ∧
      loc.last_available_at = some ⟨2021, 3, 1, 10, 0, 0⟩ ∧
      loc.updated_at = some ⟨2021, 4, 2, 11, 30, 5⟩ :=
  (timestamp_optional_decode "2021-03-01T10:00:00Z" "2021-04-02T11:30:05Z"
    ⟨2021, 3, 1, 10, 0, 0⟩ ⟨2021, 4, 2, 11, 30, 5⟩
    (by decide) (by decide)).2.2

/-- `resolvePortal` returns a first match: its key equals the location's
portal string and nothing before it matches. -/
theorem resolvePortal_spec (portals : List Portal) (location : Location) :
    ∀ p, resolvePortal portals location = some p →
      p.key = location.portal ∧
      ∃ before after, portals = before ++ p :: after ∧
        ∀ q ∈ before, q.key ≠ location.portal := by
  induction portals with
  | nil => intro p h; simp [resolvePortal] at h
  | cons q qs ih =>
    intro p h
    simp only [resolvePortal, List.find?] at h
    cases hq : (q.key == location.portal) with
    | true =>
      rw [hq] at h
      cases h
      exact ⟨by simpa using hq, [], qs, rfl, by simp⟩
    | false =>
      rw [hq] at h
      obtain ⟨hk, before, after, happ, hbef⟩ := ih p h
      refine ⟨hk, q :: before, after, by rw [happ]; rfl, ?_⟩
      intro x hx
      rcases List.mem_cons.mp hx with hx | hx
      · subst hx; simpa using hq
      · exact hbef x hx

/-- When no portal matched, the composed body ends with the fallback
referral line. -/
theorem notifyBody_none_fallback (location : Location) :
    ∃ pre, (notifyBody location none).data = pre ++ fallbackReferral.data := by
  cases hs : location.appointments.summary with
  | none =>
    refine ⟨("Found " ++ toString location.appointments.count ++
      " vaccine appoitnemnt(s)! The location is " ++ location.name ++
      " in " ++ location.area.display ++ ".\n").data, ?_⟩
    simp [notifyBody, hs, String.data_append, List.append_assoc]
  | some s =>
    refine ⟨("Found " ++ toString location.appointments.count ++
      " vaccine appoitnemnt(s)! The location is " ++ location.name ++
      " in " ++ location.area.display ++ ".\n" ++ s ++ "\n").data, ?_⟩
    simp [notifyBody, hs, String.data_append, List.append_assoc]

/-- C6: portal resolution scans the Snapshot's portals and yields the first
Portal whose key equals the location's portal string; it yields `none`
exactly when no portal matches, and then the composed body carries the
generic fallback referral line. -/
theorem portal_resolution_correct (portals : List Portal)
    (location : Location) :
    (∀ p, resolvePortal portals location = some p →
      p.key = location.portal ∧
      ∃ before after, portals = before ++ p :: after ∧
        ∀ q ∈ before, q.key ≠ location.portal) ∧
    (resolvePortal portals location = none ↔
      ∀ p ∈ portals, p.key ≠ location.portal) ∧
    (resolvePortal portals location = none →
      ∃ pre, (notifyBody location (resolvePortal portals location)).data =
        pre ++ fallbackReferral.data) := by
  refine ⟨resolvePortal_spec portals location, ?_, ?_⟩
  · rw [resolvePortal, List.find?_eq_none]
    simp
  · intro h
    rw [h]
    exact notifyBody_none_fallback location

/-- Concrete portals and locations for the portal-resolution claims. -/
def portalA : Portal := ⟨"p1", "CityVax", "https://x", .Clinic⟩

def portalB : Portal := ⟨"p0", "OtherVax", "https://y", .Pharmacy⟩

def locP1 : Location :=
  ⟨true, ⟨3, some "Walk-ins welcome"⟩, .Brooklyn, true, "loc-1", none,
   "Clinic A", "p1", none⟩

def locMissing : Location :=
  ⟨true, ⟨1, none⟩, .Manhattan, true, "m", none, "M", "missing", none⟩

/-- C6 witness: with portals `[portalB, portalA]`, a location with portal
key `"p1"` resolves to `portalA` past the non-matching `portalB`; with
portals `[portalA]`, portal key `"missing"` resolves to `none` and the body
ends with the fallback referral. -/
theorem portal_resolution_correct_witness :
    (portalA.key = locP1.portal ∧
      ∃ before after, [portalB, portalA] = before ++ portalA :: after ∧
        ∀ q ∈ before, q.key ≠ locP1.portal) ∧
    (∃ pre, (notifyBody locMissing (resolvePortal [portalA] locMissing)).data =
      pre ++ fallbackReferral.data) :=
  ⟨(portal_resolution_correct [portalB, portalA] locP1).1 portalA rfl,
   (portal_resolution_correct [portalA] locMissing).2.2 rfl⟩

/-- Prepending to the haystack preserves infixes. -/
theorem isInfix_append_left {α : Type _} {n l₂ : List α} (l₁ : List α)
    (h : n <:+: l₂) : n <:+: l₁ ++ l₂ := by
  obtain ⟨s, t, hst⟩ := h
  exact ⟨l₁ ++ s, t, by rw [← hst]; simp [List.append_assoc]⟩

/-- A list is an infix of itself followed by anything. -/
theorem isInfix_self_append {α : Type _} (n t : List α) : n <:+: n ++ t :=
  ⟨[], t, rfl⟩

/-- C7: for every location and resolved portal, the composed body contains
the appointment count, the location name, the area display name, the
appointment summary when present, and the portal's name and URL. -/
theorem message_composition_contains (location : Location) (portal : Portal) :
    ((toString location.appointments.count).data <:+:
      (notifyBody location (some portal)).data) ∧
    (location.name.data <:+: (notifyBody location (some portal)).data) ∧
    (location.area.display.data <:+: (notifyBody location (some portal)).data) ∧
    (∀ s, location.appointments.summary = some s →
      s.data <:+: (notifyBody location (some portal)).data) ∧
    (portal.name.data <:+: (notifyBody location (some portal)).data) ∧
    (portal.url.data <:+: (notifyBody location (some portal)).data) := by
  cases hs : location.appointments.summary with
  | none =>
    refine ⟨?_, ?_, ?_, ?_, ?_, ?_⟩ <;>
      simp only [notifyBody, hs, String.data_append, List.append_assoc]
    · exact isInfix_append_left _ (isInfix_self_append _ _)
    · exact isInfix_append_left _ (isInfix_append_left _ (isInfix_append_left _
        (isInfix_self_append _ _)))
    · exact isInfix_append_left _ (isInfix_append_left _ (isInfix_append_left _
        (isInfix_append_left _ (isInfix_append_left _ (isInfix_self_append _ _)))))
    · exact fun s h => nomatch h
    · exact isInfix_append_left _ (isInfix_append_left _ (isInfix_append_left _
        (isInfix_append_left _ (isInfix_append_left _ (isInfix_append_left _
        (isInfix_append_left _ (isInfix_append_left _ (isInfix_self_append _ _))))))))
    · exact isInfix_append_left _ (isInfix_append_left _ (isInfix_append_left _
        (isInfix_append_left _ (isInfix_append_left _ (isInfix_append_left _
        (isInfix_append_left _ (isInfix_append_left _ (isInfix_append_left _
        (isInfix_append_left _ (List.infix_refl _))))))))))
  | some s =>
    refine ⟨?_, ?_, ?_, ?_, ?_, ?_⟩ <;>
      simp only [notifyBody, hs, String.data_append, List.append_assoc]
    · exact isInfix_append_left _ (isInfix_self_append _ _)
    · exact isInfix_append_left _ (isInfix_append_left _ (isInfix_append_left _
        (isInfix_self_append _ _)))
    · exact isInfix_append_left _ (isInfix_append_left _ (isInfix_append_left _
        (isInfix_append_left _ (isInfix_append_left _ (isInfix_self_append _ _)))))
    · intro t ht
      cases ht
      exact isInfix_append_left _ (isInfix_append_left _ (isInfix_append_left _
        (isInfix_append_left _ (isInfix_append_left _ (isInfix_append_left _
        (isInfix_append_left _ (isInfix_self_append _ _)))))))
    · exact isInfix_append_left _ (isInfix_append_left _ (isInfix_append_left _
        (isInfix_append_left _ (isInfix_append_left _ (isInfix_append_left _
        (isInfix_append_left _ (isInfix_append_left _ (isInfix_append_left _
        (isInfix_append_left _ (isInfix_self_append _ _))))))))))
    · exact isInfix_append_left _ (isInfix_append_left _ (isInfix_append_left _
        (isInfix_append_left _ (isInfix_append_left _ (isInfix_append_left _
        (isInfix_append_left _ (isInfix_append_left _ (isInfix_append_left _
        (isInfix_append_left _ (isInfix_append_left _ (isInfix_append_left _
        (List.infix_refl _))))))))))))

/-- C7 witness: at `locP1` (count 3, name "Clinic A", Brooklyn, summary
"Walk-ins welcome") and `portalA` (name "CityVax", url "https://x"), the
body contains "3", "Clinic A", "Brooklyn", "Walk-ins welcome", "CityVax",
and "https://x". -/
theorem message_composition_contains_witness :
    ("3").data <:+: (notifyBody locP1 (some portalA)).data ∧
    ("Clinic A").data <:+: (notifyBody locP1 (some portalA)).data ∧
    ("Brooklyn").data <:+: (notifyBody locP1 (some portalA)).data ∧
    ("Walk-ins welcome").data <:+: (notifyBody locP1 (some portalA)).data ∧
    ("CityVax").data <:+: (notifyBody locP1 (some portalA)).data ∧
    ("https://x").data <:+: (notifyBody locP1 (some portalA)).data :=
  ⟨(message_composition_contains locP1 portalA).1,
   (message_composition_contains locP1 portalA).2.1,
   (message_composition_contains locP1 portalA).2.2.1,
   (message_composition_contains locP1 portalA).2.2.2.1 "Walk-ins welcome" rfl,
   (message_composition_contains locP1 portalA).2.2.2.2.1,
   (message_composition_contains locP1 portalA).2.2.2.2.2⟩

/-- A well-formed Response JSON with no locations and no portals. -/
def emptyBodyJson : Json :=
  .obj [("last_updated_at", .str "2021-03-01T10:00:00Z"),
        ("locations", .arr []),
        ("portals", .arr [])]

/-- An oracle whose every fetch yields an HTTP 500 response with a
well-formed (decodable) body, and whose sends all succeed. -/
def oracle500 : Oracle :=
  ⟨fun _ => .response 500 emptyBodyJson, fun _ _ => true⟩

/-- C2 counterexample: a fetch outcome with a non-success HTTP status (500)
and a decodable body does not terminate the loop — a second cycle executes
(two cycles run on fuel 2, with no error). -/
theorem fetch_nonsuccess_status_not_fatal :
    (oracle500.fetch 0 = .response 500 emptyBodyJson ∧
      ¬ (200 ≤ 500 ∧ 500 < 300)) ∧
    (runLoop oracle500 2).1.length = 2 ∧
    (runLoop oracle500 2).2 = none :=
  ⟨⟨rfl, by decide⟩, by decide, by decide⟩

/-- C2 (amended): a network/transport error in the Fetch step of any cycle
is fatal — from that cycle on, exactly that one cycle executes and the loop
terminates with the fetch error, with no further cycle; the HTTP status of a
returned response, however, is never consulted: the cycle's outcome depends
only on the response body. -/
theorem fetch_network_error_fatal (o : Oracle) (n fuel : Nat)
    (h : o.fetch n = .netErr) :
    (runLoopFrom o n (fuel + 1)).2 = some .fetchError ∧
    (runLoopFrom o n (fuel + 1)).1.length = 1 ∧
    (∀ m st body, o.fetch m = .response st body →
      runCycle o m = handleBody (o.sendOk m) body) := by
  have hc : runCycle o n = ([], some .fetchError) := by
    rw [runCycle, h]
  refine ⟨?_, ?_, ?_⟩
  · rw [runLoopFrom, hc]
  · rw [runLoopFrom, hc]
    rfl
  · intro m st body hm
    rw [runCycle, hm]

/-- An oracle whose every fetch is a network error. -/
def oracleNet : Oracle := ⟨fun _ => .netErr, fun _ _ => true⟩

/-- C2 witness: under `oracleNet`, starting at cycle 0 with fuel 3, exactly
one cycle executes and the loop ends with the fetch error. -/
theorem fetch_network_error_fatal_witness :
    (runLoopFrom oracleNet 0 3).2 = some .fetchError ∧
    (runLoopFrom oracleNet 0 3).1.length = 1 :=
  ⟨(fetch_network_error_fatal oracleNet 0 2 rfl).1,
   (fetch_network_error_fatal oracleNet 0 2 rfl).2.1⟩

/-- The locations a cycle's notify step invokes: all up to and including the
first failing one. -/
theorem notifySeq_fst (sendOk : Location → Bool) (ls : List Location) :
    (notifySeq sendOk ls).1 =
      ls.takeWhile sendOk ++ (ls.dropWhile sendOk).take 1 := by
  induction ls with
  | nil => rfl
  | cons l ls ih =>
    by_cases h : sendOk l <;>
      simp [notifySeq, List.takeWhile_cons, List.dropWhile_cons, h, ih]

/-- The invoked locations form a prefix of the filtered list: original
order, nothing skipped. -/
theorem notifySeq_fst_isPrefix (sendOk : Location → Bool)
    (ls : List Location) : (notifySeq sendOk ls).1 <+: ls := by
  induction ls with
  | nil => exact ⟨[], rfl⟩
  | cons l ls ih =>
    by_cases h : sendOk l
    · obtain ⟨t, ht⟩ := ih
      exact ⟨t, by simp [notifySeq, h, List.cons_append, ht]⟩
    · exact ⟨ls, by simp [notifySeq, h]⟩

/-- The notify step succeeds exactly when every send succeeds. -/
theorem notifySeq_snd (sendOk : Location → Bool) (ls : List Location) :
    ((notifySeq sendOk ls).2 = true ↔ ls.all sendOk = true) := by
  induction ls with
  | nil => simp [notifySeq]
  | cons l ls ih =>
    by_cases h : sendOk l <;> simp [notifySeq, h, ih]

/-- C9: the notify step walks the filtered locations sequentially in the
Snapshot's original order — the invoked locations are a prefix of the
filtered list, namely everything up to and including the first failure, so
no location after the failing one is notified — and a cycle whose fetch and
decode succeed runs exactly this walk, turning a failed walk into the
cycle's send error. -/
theorem notify_order_and_abort (sendOk : Location → Bool)
    (ls : List Location) :
    ((notifySeq sendOk ls).1 =
      ls.takeWhile sendOk ++ (ls.dropWhile sendOk).take 1) ∧
    ((notifySeq sendOk ls).1 <+: ls) ∧
    ((notifySeq sendOk ls).2 = true ↔ ls.all sendOk = true) ∧
    (∀ (o : Oracle) (n st : Nat) (body : Json) (res : Response),
      o.fetch n = .response st body → decodeResponse body = some res →
      runCycle o n =
        ((notifySeq (o.sendOk n) (availableLocations res.locations)).1,
         if (notifySeq (o.sendOk n) (availableLocations res.locations)).2
           then none else some LoopErr.sendError)) := by
  refine ⟨notifySeq_fst sendOk ls, notifySeq_fst_isPrefix sendOk ls,
    notifySeq_snd sendOk ls, ?_⟩
  intro o n st body res h1 h2
  simp [runCycle, h1, handleBody, h2]

/-- Location JSON for the C9 scenario (optional fields omitted). -/
def mkLocJson (aname lid : String) : Json :=
  .obj [("active", .bool true),
        ("appointments", .obj [("count", .num 1 true)]),
        ("area", .str aname),
        ("available", .bool true),
        ("id", .str lid),
        ("name", .str lid),
        ("portal", .str "p1")]

def loc1 : Location := ⟨true, ⟨1, none⟩, .Bronx, true, "w1", none, "w1", "p1", none⟩
def loc2 : Location := ⟨true, ⟨1, none⟩, .Queens, true, "w2", none, "w2", "p1", none⟩
def loc3 : Location := ⟨true, ⟨1, none⟩, .Manhattan, true, "w3", none, "w3", "p1", none⟩

def body9 : Json :=
  .obj [("last_updated_at", .str "2021-03-01T10:00:00Z"),
        ("locations", .arr [mkLocJson "Bronx" "w1", mkLocJson "Queens" "w2",
                            mkLocJson "Manhattan" "w3"]),
        ("portals", .arr [])]

def resp9 : Response := ⟨⟨2021, 3, 1, 10, 0, 0⟩, [loc1, loc2, loc3], []⟩

/-- An oracle whose fetch yields `body9` and whose send fails exactly on the
second available location. -/
def oracle9 : Oracle :=
  ⟨fun _ => .response 200 body9, fun _ l => l.id != "w2"⟩

/-- C9 witness: with three available locations and the second send failing,
the cycle notifies exactly the first two locations, in order, and stops with
the send error — the third location is never notified. -/
theorem notify_order_and_abort_witness :
    runCycle oracle9 0 = ([loc1, loc2], some LoopErr.sendError) :=
  ((notify_order_and_abort (oracle9.sendOk 0)
      (availableLocations resp9.locations)).2.2.2
    oracle9 0 200 body9 resp9 rfl (by decide)).trans (by decide)

/-- C10: `main` runs `dotenv()?` before reading the credential variables, so
when no `.env` file is found startup fails with the dotenv error — even when
`LETTRE_EMAIL` and `LETTRE_PASSWORD` are present in the environment. -/
theorem startup_requires_dotenv (getVar : String → Option String)
    (e p : String) :
    startup false getVar = .error .dotenvError ∧
    startup false (fun v => if v = "LETTRE_EMAIL" then some e else
      if v = "LETTRE_PASSWORD" then some p else getVar v) =
      .error .dotenvError :=
  ⟨rfl, rfl⟩
